import Mathlib

/-!
go-finance: the account handlers of `api/account.go`

A shallow embedding of the seven gin handlers of `api/account.go`.

* A handler is a function of the outcome of the request binding
  (`ctx.ShouldBindJSON` / `ctx.ShouldBindUri`) and of the answers of the
  `Store`; it returns the gin context it wrote to.
* The context is passed explicitly.  It holds a log of events, in program
  order: every call made on `server.store` and every `ctx.JSON(status, body)`
  write.  `calls` and `responses` project the log on either kind.
* Go's `(value, error)` results are kept as pairs (`Result`): a Go caller
  receives the value also when the error is non-nil, and the handlers below
  do use it on some paths.
* `int32` fields are carried as `Int`; no handler does arithmetic on them.
* A Go field named `Type` is `Type_` here, `Type` being reserved.
-/

namespace GoFinance

/-! Section: Data model -/

/-- A Go `error` value.  `ErrNoRows` is `sql.ErrNoRows`, the one error the
handlers compare against; every other error is `other`. -/
inductive GoError where
  | ErrNoRows
  | other (msg : String)
deriving DecidableEq

/-- A `time.Time` value, carried as an abstract instant. -/
structure Time where
  instant : Int
deriving DecidableEq

/-- Modelled from the spec: `db.Category` (package `db/sqlc`), of which the
handlers read `id` and `type`. -/
structure Category where
  ID : Int
  Type_ : String
deriving DecidableEq

/-- Modelled from the spec: `db.Account` (package `db/sqlc`), with the
attributes of the spec's Account entity. -/
structure Account where
  ID : Int
  UserID : Int
  CategoryID : Int
  Title : String
  Type_ : String
  Description : String
  Value : Int
  Date : Time
deriving DecidableEq

/-- Modelled from the spec: one row of `GetAccountGraph`, a bucket with the
count of accounts in it. -/
structure GraphRow where
  bucket : Int
  count : Int
deriving DecidableEq

/-- Modelled from the spec: one row of `GetAccountsReports`, a bucket with
the sum of the values in it. -/
structure ReportRow where
  bucket : Int
  sum : Int
deriving DecidableEq

/-- The Go zero value of `db.Category`. -/
def Category.zero : Category := ⟨0, ""⟩

/-- The Go zero value of `db.Account`. -/
def Account.zero : Account := ⟨0, 0, 0, "", "", "", 0, ⟨0⟩⟩

/-- The struct `createAccountRequest`. -/
structure createAccountRequest where
  UserID : Int
  CategoryID : Int
  Title : String
  Type_ : String
  Description : String
  Value : Int
  Date : Time
deriving DecidableEq

/-- The struct `getAccountRequest`. -/
structure getAccountRequest where
  ID : Int
deriving DecidableEq

/-- The struct `getAccountGraphRequest`. -/
structure getAccountGraphRequest where
  UserID : Int
  Type_ : String
deriving DecidableEq

/-- The struct `getAccountReportsRequest`. -/
structure getAccountReportsRequest where
  UserID : Int
  Type_ : String
deriving DecidableEq

/-- The struct `deleteAccountRequest`. -/
structure deleteAccountRequest where
  ID : Int
deriving DecidableEq

/-- The struct `updateAccountRequest`. -/
structure updateAccountRequest where
  ID : Int
  Title : String
  Description : String
  Value : Int
deriving DecidableEq

/-- The struct `getAccountsRequest`. -/
structure getAccountsRequest where
  UserID : Int
  Type_ : String
  CategoryID : Int
  Title : String
  Description : String
  Date : Time
deriving DecidableEq

/-- The struct `db.CreateAccountParams`, with the fields the handler sets. -/
structure CreateAccountParams where
  UserID : Int
  CategoryID : Int
  Title : String
  Type_ : String
  Description : String
  Value : Int
  Date : Time
deriving DecidableEq

/-- The struct `db.GetAccountGraphParams`. -/
structure GetAccountGraphParams where
  UserID : Int
  Type_ : String
deriving DecidableEq

/-- The struct `db.GetAccountsReportsParams`. -/
structure GetAccountsReportsParams where
  UserID : Int
  Type_ : String
deriving DecidableEq

/-- The struct `db.UpdateAccountParams`. -/
structure UpdateAccountParams where
  ID : Int
  Title : String
  Description : String
  Value : Int
deriving DecidableEq

/-- The struct `db.GetAccountsParams`. -/
structure GetAccountsParams where
  UserID : Int
  Type_ : String
  CategoryID : Int
  Title : String
  Description : String
  Date : Time
deriving DecidableEq

/-! Section: The store and the gin context -/

/-- A Go `(value, error)` result: the value is there also when `err` is set. -/
structure Result (α : Type) where
  val : α
  err : Option GoError

/-- The answers of `server.store`, one function per method the handlers use. -/
structure Store where
  GetCategory : Int → Result Category
  CreateAccount : CreateAccountParams → Result Account
  GetAccount : Int → Result Account
  GetAccounts : GetAccountsParams → Result (List Account)
  UpdateAccount : UpdateAccountParams → Result Account
  DeleteAccount : Int → Option GoError
  GetAccountGraph : GetAccountGraphParams → Result (List GraphRow)
  GetAccountsReports : GetAccountsReportsParams → Result (List ReportRow)

/-- The outcome of `ctx.ShouldBindJSON(&req)` / `ctx.ShouldBindUri(&req)`:
the request struct as the binder left it, and the error it returned. -/
structure Bind (ρ : Type) where
  req : ρ
  err : Option GoError

/-- A call on `server.store`, with its argument. -/
inductive StoreCall where
  | GetCategory (id : Int)
  | CreateAccount (arg : CreateAccountParams)
  | GetAccount (id : Int)
  | GetAccounts (arg : GetAccountsParams)
  | UpdateAccount (arg : UpdateAccountParams)
  | DeleteAccount (id : Int)
  | GetAccountGraph (arg : GetAccountGraphParams)
  | GetAccountsReports (arg : GetAccountsReportsParams)
deriving DecidableEq

/-- The second argument of `ctx.JSON`.  `errorResponse err` is the value of
the helper `errorResponse` (declared outside `api/account.go`), kept
uninterpreted. -/
inductive Body where
  | errorResponse (err : GoError)
  | text (s : String)
  | bool (b : Bool)
  | account (a : Account)
  | accounts (l : List Account)
  | graph (rows : List GraphRow)
  | reports (rows : List ReportRow)
deriving DecidableEq

/-- One observable step of a handler. -/
inductive Event where
  | call (c : StoreCall)
  | response (status : Nat) (body : Body)
deriving DecidableEq

/-- The gin context, as far as the handlers act on it: the log of events. -/
structure Context where
  log : List Event
deriving DecidableEq

/-- The context a handler starts with. -/
def Context.new : Context := ⟨[]⟩

/-- The write `ctx.JSON(status, body)`. -/
def Context.JSON (ctx : Context) (status : Nat) (body : Body) : Context :=
  ⟨ctx.log ++ [Event.response status body]⟩

/-- Record that a store method was called. -/
def Context.store (ctx : Context) (c : StoreCall) : Context :=
  ⟨ctx.log ++ [Event.call c]⟩

def StatusOK : Nat := 200
def StatusBadRequest : Nat := 400
def StatusNotFound : Nat := 404
def StatusInternalServerError : Nat := 500

/-- The store calls of a log, in order. -/
def calls (ctx : Context) : List StoreCall :=
  ctx.log.filterMap fun e =>
    match e with
    | Event.call c => some c
    | Event.response _ _ => none

/-- The `(status, body)` writes of a log, in order. -/
def responses (ctx : Context) : List (Nat × Body) :=
  ctx.log.filterMap fun e =>
    match e with
    | Event.call _ => none
    | Event.response s b => some (s, b)

/-- The arguments of the `CreateAccount` calls of a log, in order. -/
def createAccountCalls (ctx : Context) : List CreateAccountParams :=
  (calls ctx).filterMap fun c =>
    match c with
    | StoreCall.CreateAccount arg => some arg
    | _ => none

/-- The arguments of the `GetCategory` calls of a log, in order. -/
def getCategoryCalls (ctx : Context) : List Int :=
  (calls ctx).filterMap fun c =>
    match c with
    | StoreCall.GetCategory id => some id
    | _ => none

/-! Section: The handlers -/

/-- The handler `createAccount` (api/account.go, lines 22-58). -/
def createAccount (store : Store) (bind : Bind createAccountRequest) : Context :=
  let ctx := Context.new
  let req := bind.req
  let ctx :=
    match bind.err with
    | some err => ctx.JSON StatusBadRequest (Body.errorResponse err)
    | none => ctx
  let categoryId := req.CategoryID
  let accountType := req.Type_
  let ctx := ctx.store (StoreCall.GetCategory categoryId)
  let r := store.GetCategory categoryId
  let category := r.val
  let ctx :=
    match r.err with
    | some err => ctx.JSON StatusNotFound (Body.errorResponse err)
    | none => ctx
  let categoryTypeIsDifferentOfAccountType := category.Type_ != accountType
  if categoryTypeIsDifferentOfAccountType then
    ctx.JSON StatusBadRequest (Body.text "Account type is different of Category type")
  else
    let arg : CreateAccountParams :=
      { UserID := req.UserID
        CategoryID := categoryId
        Title := req.Title
        Type_ := accountType
        Description := req.Description
        Value := req.Value
        Date := req.Date }
    let ctx := ctx.store (StoreCall.CreateAccount arg)
    let r := store.CreateAccount arg
    let account := r.val
    let ctx :=
      match r.err with
      | some err => ctx.JSON StatusInternalServerError (Body.errorResponse err)
      | none => ctx
    ctx.JSON StatusOK (Body.account account)

/-- The handler `getAccount` (lines 64-82). -/
def getAccount (store : Store) (bind : Bind getAccountRequest) : Context :=
  let ctx := Context.new
  let req := bind.req
  let ctx :=
    match bind.err with
    | some err => ctx.JSON StatusBadRequest (Body.errorResponse err)
    | none => ctx
  let ctx := ctx.store (StoreCall.GetAccount req.ID)
  let r := store.GetAccount req.ID
  let account := r.val
  match r.err with
  | some err =>
    if err = GoError.ErrNoRows then
      ctx.JSON StatusNotFound (Body.errorResponse err)
    else
      ctx.JSON StatusInternalServerError (Body.errorResponse err)
  | none => ctx.JSON StatusOK (Body.account account)

/-- The handler `getAccountGraph` (lines 89-108). -/
def getAccountGraph (store : Store) (bind : Bind getAccountGraphRequest) : Context :=
  let ctx := Context.new
  let req := bind.req
  let ctx :=
    match bind.err with
    | some err => ctx.JSON StatusBadRequest (Body.errorResponse err)
    | none => ctx
  let arg : GetAccountGraphParams :=
    { UserID := req.UserID
      Type_ := req.Type_ }
  let ctx := ctx.store (StoreCall.GetAccountGraph arg)
  let r := store.GetAccountGraph arg
  let countGraph := r.val
  match r.err with
  | some err => ctx.JSON StatusInternalServerError (Body.errorResponse err)
  | none => ctx.JSON StatusOK (Body.graph countGraph)

/-- The handler `getAccountReports` (lines 115-134). -/
def getAccountReports (store : Store) (bind : Bind getAccountReportsRequest) : Context :=
  let ctx := Context.new
  let req := bind.req
  let ctx :=
    match bind.err with
    | some err => ctx.JSON StatusBadRequest (Body.errorResponse err)
    | none => ctx
  let arg : GetAccountsReportsParams :=
    { UserID := req.UserID
      Type_ := req.Type_ }
  let ctx := ctx.store (StoreCall.GetAccountsReports arg)
  let r := store.GetAccountsReports arg
  let sumReports := r.val
  match r.err with
  | some err => ctx.JSON StatusInternalServerError (Body.errorResponse err)
  | none => ctx.JSON StatusOK (Body.reports sumReports)

/-- The handler `deleteAccount` (lines 140-154). -/
def deleteAccount (store : Store) (bind : Bind deleteAccountRequest) : Context :=
  let ctx := Context.new
  let req := bind.req
  let ctx :=
    match bind.err with
    | some err => ctx.JSON StatusBadRequest (Body.errorResponse err)
    | none => ctx
  let ctx := ctx.store (StoreCall.DeleteAccount req.ID)
  match store.DeleteAccount req.ID with
  | some err => ctx.JSON StatusInternalServerError (Body.errorResponse err)
  | none => ctx.JSON StatusOK (Body.bool true)

/-- The handler `updateAccount` (lines 163-183). -/
def updateAccount (store : Store) (bind : Bind updateAccountRequest) : Context :=
  let ctx := Context.new
  let req := bind.req
  let ctx :=
    match bind.err with
    | some err => ctx.JSON StatusBadRequest (Body.errorResponse err)
    | none => ctx
  let arg : UpdateAccountParams :=
    { ID := req.ID
      Title := req.Title
      Description := req.Description
      Value := req.Value }
  let ctx := ctx.store (StoreCall.UpdateAccount arg)
  let r := store.UpdateAccount arg
  let account := r.val
  let ctx :=
    match r.err with
    | some err => ctx.JSON StatusInternalServerError (Body.errorResponse err)
    | none => ctx
  ctx.JSON StatusOK (Body.account account)

/-- The handler `getAccounts` (lines 194-217). -/
def getAccounts (store : Store) (bind : Bind getAccountsRequest) : Context :=
  let ctx := Context.new
  let req := bind.req
  let ctx :=
    match bind.err with
    | some err => ctx.JSON StatusBadRequest (Body.errorResponse err)
    | none => ctx
  let arg : GetAccountsParams :=
    { UserID := req.UserID
      Type_ := req.Type_
      CategoryID := req.CategoryID
      Title := req.Title
      Description := req.Description
      Date := req.Date }
  let ctx := ctx.store (StoreCall.GetAccounts arg)
  let r := store.GetAccounts arg
  let accounts := r.val
  match r.err with
  | some err => ctx.JSON StatusInternalServerError (Body.errorResponse err)
  | none => ctx.JSON StatusOK (Body.accounts accounts)

/-! Section: Descriptions of what a handler writes -/

/-- The responses of `if err != nil { ctx.JSON(status, errorResponse(err)) }`:
one when `err` is set, none otherwise. -/
def onErr (status : Nat) (err : Option GoError) : List (Nat × Body) :=
  match err with
  | some e => [(status, Body.errorResponse e)]
  | none => []

/-- The literal `db.CreateAccountParams` that `createAccount` builds from
the request (lines 41-49). -/
def createArg (req : createAccountRequest) : CreateAccountParams :=
  { UserID := req.UserID
    CategoryID := req.CategoryID
    Title := req.Title
    Type_ := req.Type_
    Description := req.Description
    Value := req.Value
    Date := req.Date }

/-! Section: Concrete stores and requests -/

/-- A store over an empty database: every lookup, update and delete reports
`sql.ErrNoRows` with a zero value, an insert fails (the category it refers
to is not there), and the list and aggregate queries return no rows. -/
def emptyStore : Store where
  GetCategory := fun _ => ⟨Category.zero, some GoError.ErrNoRows⟩
  CreateAccount := fun _ => ⟨Account.zero, some (GoError.other "violates foreign key constraint")⟩
  GetAccount := fun _ => ⟨Account.zero, some GoError.ErrNoRows⟩
  GetAccounts := fun _ => ⟨[], none⟩
  UpdateAccount := fun _ => ⟨Account.zero, some GoError.ErrNoRows⟩
  DeleteAccount := fun _ => some GoError.ErrNoRows
  GetAccountGraph := fun _ => ⟨[], none⟩
  GetAccountsReports := fun _ => ⟨[], none⟩

/-- A store whose categories all exist, category `id` having type
"expense", and whose writes fail: the database went away after the lookup. -/
def failingWriteStore : Store where
  GetCategory := fun id => ⟨⟨id, "expense"⟩, none⟩
  CreateAccount := fun _ => ⟨Account.zero, some (GoError.other "connection refused")⟩
  GetAccount := fun _ => ⟨Account.zero, some (GoError.other "connection refused")⟩
  GetAccounts := fun _ => ⟨[], some (GoError.other "connection refused")⟩
  UpdateAccount := fun _ => ⟨Account.zero, some (GoError.other "connection refused")⟩
  DeleteAccount := fun _ => some (GoError.other "connection refused")
  GetAccountGraph := fun _ => ⟨[], some (GoError.other "connection refused")⟩
  GetAccountsReports := fun _ => ⟨[], some (GoError.other "connection refused")⟩

/-- A store that works: category `id` exists with type "expense", an insert
returns the row with id 1, a read or update returns account `id`. -/
def workingStore : Store where
  GetCategory := fun id => ⟨⟨id, "expense"⟩, none⟩
  CreateAccount := fun arg =>
    ⟨⟨1, arg.UserID, arg.CategoryID, arg.Title, arg.Type_, arg.Description, arg.Value, arg.Date⟩, none⟩
  GetAccount := fun id => ⟨⟨id, 1, 5, "Rent", "expense", "flat", -1500, ⟨0⟩⟩, none⟩
  GetAccounts := fun _ => ⟨[], none⟩
  UpdateAccount := fun arg =>
    ⟨⟨arg.ID, 1, 5, arg.Title, "expense", arg.Description, arg.Value, ⟨0⟩⟩, none⟩
  DeleteAccount := fun _ => none
  GetAccountGraph := fun _ => ⟨[], none⟩
  GetAccountsReports := fun _ => ⟨[], none⟩

/-- A well-formed create request: category 5, type "expense", value -1500. -/
def expenseRequest : createAccountRequest :=
  ⟨1, 5, "Rent", "expense", "flat", -1500, ⟨0⟩⟩

/-- A well-formed create request of type "income" for category 5. -/
def incomeRequest : createAccountRequest :=
  ⟨1, 5, "Salary", "income", "monthly", 3000, ⟨0⟩⟩

/-- A well-formed create request for category 5 whose type differs from
"expense" in letter case only. -/
def capitalisedRequest : createAccountRequest :=
  ⟨1, 5, "Rent", "Expense", "flat", -1500, ⟨0⟩⟩

/-- The error of a binder that rejected the request. -/
def bindError : GoError := GoError.other "invalid request"

/-- The create request struct after a failed bind of a body that is not
JSON: every field still has its zero value. -/
def createAccountRequest.zero : createAccountRequest :=
  ⟨0, 0, "", "", "", 0, ⟨0⟩⟩

/-! Section: Properties -/

/-- The `ctx.JSON` writes and the record of a store call, seen through
`calls` and `responses`. -/
theorem calls_JSON (ctx : Context) (s : Nat) (b : Body) :
    calls (ctx.JSON s b) = calls ctx := by
  simp [calls, Context.JSON]

theorem calls_store (ctx : Context) (c : StoreCall) :
    calls (ctx.store c) = calls ctx ++ [c] := by
  simp [calls, Context.store]

theorem responses_JSON (ctx : Context) (s : Nat) (b : Body) :
    responses (ctx.JSON s b) = responses ctx ++ [(s, b)] := by
  simp [responses, Context.JSON]

theorem responses_store (ctx : Context) (c : StoreCall) :
    responses (ctx.store c) = responses ctx := by
  simp [responses, Context.store]

theorem calls_new : calls Context.new = [] := rfl

theorem responses_new : responses Context.new = [] := rfl

/-- The store calls of `createAccount`, whatever the bind outcome and the
store answer. -/
theorem createAccount_calls (store : Store) (bind : Bind createAccountRequest) :
    calls (createAccount store bind) =
      if (store.GetCategory bind.req.CategoryID).val.Type_ = bind.req.Type_ then
        [StoreCall.GetCategory bind.req.CategoryID,
         StoreCall.CreateAccount (createArg bind.req)]
      else [StoreCall.GetCategory bind.req.CategoryID] := by
  by_cases h : (store.GetCategory bind.req.CategoryID).val.Type_ = bind.req.Type_
  · cases hb : bind.err <;> cases hg : (store.GetCategory bind.req.CategoryID).err <;>
      cases hc : (store.CreateAccount (createArg bind.req)).err <;>
      simp only [createArg] at hc <;>
      simp [createAccount, createArg, hb, hg, hc, h, calls_JSON, calls_store, calls_new]
  · cases hb : bind.err <;> cases hg : (store.GetCategory bind.req.CategoryID).err <;>
      simp [createAccount, hb, hg, h, calls_JSON, calls_store, calls_new]

/-- The responses of `createAccount`, whatever the bind outcome and the
store answer. -/
theorem createAccount_responses (store : Store) (bind : Bind createAccountRequest) :
    responses (createAccount store bind) =
      onErr 400 bind.err ++ onErr 404 (store.GetCategory bind.req.CategoryID).err ++
      if (store.GetCategory bind.req.CategoryID).val.Type_ = bind.req.Type_ then
        onErr 500 (store.CreateAccount (createArg bind.req)).err ++
          [(200, Body.account (store.CreateAccount (createArg bind.req)).val)]
      else [(400, Body.text "Account type is different of Category type")] := by
  by_cases h : (store.GetCategory bind.req.CategoryID).val.Type_ = bind.req.Type_
  · cases hb : bind.err <;> cases hg : (store.GetCategory bind.req.CategoryID).err <;>
      cases hc : (store.CreateAccount (createArg bind.req)).err <;>
      simp only [createArg] at hc <;>
      simp [createAccount, createArg, hb, hg, hc, h, responses_JSON, responses_store,
        responses_new, onErr, StatusOK, StatusBadRequest, StatusNotFound,
        StatusInternalServerError]
  · cases hb : bind.err <;> cases hg : (store.GetCategory bind.req.CategoryID).err <;>
      simp [createAccount, hb, hg, h, responses_JSON, responses_store, responses_new, onErr,
        StatusBadRequest, StatusNotFound]

/-- The store calls of `getAccount`. -/
theorem getAccount_calls (store : Store) (bind : Bind getAccountRequest) :
    calls (getAccount store bind) = [StoreCall.GetAccount bind.req.ID] := by
  cases hb : bind.err <;> cases hr : (store.GetAccount bind.req.ID).err <;>
    simp [getAccount, hb, hr, calls_JSON, calls_store, calls_new] <;>
    split <;> simp [calls_JSON, calls_store, calls_new]

/-- The responses of `getAccount`. -/
theorem getAccount_responses (store : Store) (bind : Bind getAccountRequest) :
    responses (getAccount store bind) =
      onErr 400 bind.err ++
      match (store.GetAccount bind.req.ID).err with
      | some e =>
        if e = GoError.ErrNoRows then [(404, Body.errorResponse e)]
        else [(500, Body.errorResponse e)]
      | none => [(200, Body.account (store.GetAccount bind.req.ID).val)] := by
  cases hb : bind.err <;> cases hr : (store.GetAccount bind.req.ID).err <;>
    simp [getAccount, hb, hr, responses_JSON, responses_store, responses_new, onErr,
      StatusOK, StatusBadRequest, StatusNotFound, StatusInternalServerError] <;>
    split <;>
    simp [responses_JSON, responses_store, responses_new, *]

/-- The store calls of `getAccountGraph`. -/
theorem getAccountGraph_calls (store : Store) (bind : Bind getAccountGraphRequest) :
    calls (getAccountGraph store bind) =
      [StoreCall.GetAccountGraph ⟨bind.req.UserID, bind.req.Type_⟩] := by
  cases hb : bind.err <;>
    cases hr : (store.GetAccountGraph ⟨bind.req.UserID, bind.req.Type_⟩).err <;>
    simp [getAccountGraph, hb, hr, calls_JSON, calls_store, calls_new]

/-- The responses of `getAccountGraph`. -/
theorem getAccountGraph_responses (store : Store) (bind : Bind getAccountGraphRequest) :
    responses (getAccountGraph store bind) =
      onErr 400 bind.err ++
      match (store.GetAccountGraph ⟨bind.req.UserID, bind.req.Type_⟩).err with
      | some e => [(500, Body.errorResponse e)]
      | none =>
        [(200, Body.graph (store.GetAccountGraph ⟨bind.req.UserID, bind.req.Type_⟩).val)] := by
  cases hb : bind.err <;>
    cases hr : (store.GetAccountGraph ⟨bind.req.UserID, bind.req.Type_⟩).err <;>
    simp [getAccountGraph, hb, hr, responses_JSON, responses_store, responses_new, onErr,
      StatusOK, StatusBadRequest, StatusInternalServerError]

/-- The store calls of `getAccountReports`. -/
theorem getAccountReports_calls (store : Store) (bind : Bind getAccountReportsRequest) :
    calls (getAccountReports store bind) =
      [StoreCall.GetAccountsReports ⟨bind.req.UserID, bind.req.Type_⟩] := by
  cases hb : bind.err <;>
    cases hr : (store.GetAccountsReports ⟨bind.req.UserID, bind.req.Type_⟩).err <;>
    simp [getAccountReports, hb, hr, calls_JSON, calls_store, calls_new]

/-- The responses of `getAccountReports`. -/
theorem getAccountReports_responses (store : Store) (bind : Bind getAccountReportsRequest) :
    responses (getAccountReports store bind) =
      onErr 400 bind.err ++
      match (store.GetAccountsReports ⟨bind.req.UserID, bind.req.Type_⟩).err with
      | some e => [(500, Body.errorResponse e)]
      | none =>
        [(200,
          Body.reports (store.GetAccountsReports ⟨bind.req.UserID, bind.req.Type_⟩).val)] := by
  cases hb : bind.err <;>
    cases hr : (store.GetAccountsReports ⟨bind.req.UserID, bind.req.Type_⟩).err <;>
    simp [getAccountReports, hb, hr, responses_JSON, responses_store, responses_new, onErr,
      StatusOK, StatusBadRequest, StatusInternalServerError]

/-- The store calls of `deleteAccount`. -/
theorem deleteAccount_calls (store : Store) (bind : Bind deleteAccountRequest) :
    calls (deleteAccount store bind) = [StoreCall.DeleteAccount bind.req.ID] := by
  cases hb : bind.err <;> cases hr : store.DeleteAccount bind.req.ID <;>
    simp [deleteAccount, hb, hr, calls_JSON, calls_store, calls_new]

/-- The responses of `deleteAccount`. -/
theorem deleteAccount_responses (store : Store) (bind : Bind deleteAccountRequest) :
    responses (deleteAccount store bind) =
      onErr 400 bind.err ++
      match store.DeleteAccount bind.req.ID with
      | some e => [(500, Body.errorResponse e)]
      | none => [(200, Body.bool true)] := by
  cases hb : bind.err <;> cases hr : store.DeleteAccount bind.req.ID <;>
    simp [deleteAccount, hb, hr, responses_JSON, responses_store, responses_new, onErr,
      StatusOK, StatusBadRequest, StatusInternalServerError]

/-- The store calls of `updateAccount`. -/
theorem updateAccount_calls (store : Store) (bind : Bind updateAccountRequest) :
    calls (updateAccount store bind) =
      [StoreCall.UpdateAccount
        ⟨bind.req.ID, bind.req.Title, bind.req.Description, bind.req.Value⟩] := by
  cases hb : bind.err <;>
    cases hr : (store.UpdateAccount
      ⟨bind.req.ID, bind.req.Title, bind.req.Description, bind.req.Value⟩).err <;>
    simp [updateAccount, hb, hr, calls_JSON, calls_store, calls_new]

/-- The responses of `updateAccount`. -/
theorem updateAccount_responses (store : Store) (bind : Bind updateAccountRequest) :
    responses (updateAccount store bind) =
      onErr 400 bind.err ++
      onErr 500 (store.UpdateAccount
        ⟨bind.req.ID, bind.req.Title, bind.req.Description, bind.req.Value⟩).err ++
      [(200, Body.account (store.UpdateAccount
        ⟨bind.req.ID, bind.req.Title, bind.req.Description, bind.req.Value⟩).val)] := by
  cases hb : bind.err <;>
    cases hr : (store.UpdateAccount
      ⟨bind.req.ID, bind.req.Title, bind.req.Description, bind.req.Value⟩).err <;>
    simp [updateAccount, hb, hr, responses_JSON, responses_store, responses_new, onErr,
      StatusOK, StatusBadRequest, StatusInternalServerError]

/-- The store calls of `getAccounts`. -/
theorem getAccounts_calls (store : Store) (bind : Bind getAccountsRequest) :
    calls (getAccounts store bind) =
      [StoreCall.GetAccounts ⟨bind.req.UserID, bind.req.Type_, bind.req.CategoryID,
        bind.req.Title, bind.req.Description, bind.req.Date⟩] := by
  cases hb : bind.err <;>
    cases hr : (store.GetAccounts ⟨bind.req.UserID, bind.req.Type_, bind.req.CategoryID,
      bind.req.Title, bind.req.Description, bind.req.Date⟩).err <;>
    simp [getAccounts, hb, hr, calls_JSON, calls_store, calls_new]

/-- C1: when the binding succeeds and `GetCategory` returns category `C`
without error, `createAccount` calls `CreateAccount` exactly when the
requested type equals `C.Type` as a string; otherwise it makes no
`CreateAccount` call and its only response is status 400 with the body
"Account type is different of Category type". -/
theorem createAccount_creates_iff_type_eq (store : Store)
    (bind : Bind createAccountRequest) (C : Category)
    (hbind : bind.err = none)
    (hval : (store.GetCategory bind.req.CategoryID).val = C)
    (herr : (store.GetCategory bind.req.CategoryID).err = none) :
    ((∃ arg, StoreCall.CreateAccount arg ∈ calls (createAccount store bind))
        ↔ bind.req.Type_ = C.Type_) ∧
    (bind.req.Type_ ≠ C.Type_ →
      createAccountCalls (createAccount store bind) = [] ∧
      responses (createAccount store bind) =
        [(400, Body.text "Account type is different of Category type")]) := by
  subst hval
  rw [createAccount_calls, createAccount_responses, createAccountCalls, createAccount_calls,
    hbind, herr]
  by_cases h : (store.GetCategory bind.req.CategoryID).val.Type_ = bind.req.Type_
  · rw [if_pos h]
    refine ⟨⟨fun _ => h.symm, fun _ => ⟨createArg bind.req, by simp⟩⟩, fun hne => ?_⟩
    exact absurd h.symm hne
  · rw [if_neg h, if_neg h]
    refine ⟨⟨fun hex => ?_, fun he => absurd he.symm h⟩, fun _ => ⟨by simp, by simp [onErr]⟩⟩
    obtain ⟨arg, harg⟩ := hex
    simp at harg

/-- C1 at a concrete input: category 5 has type "expense", the request asks
for "Expense"; the types differ in case only and no account is created. -/
theorem createAccount_creates_iff_type_eq_witness :
    ((∃ arg, StoreCall.CreateAccount arg ∈
        calls (createAccount workingStore ⟨capitalisedRequest, none⟩))
        ↔ capitalisedRequest.Type_ = (Category.mk 5 "expense").Type_) ∧
    (capitalisedRequest.Type_ ≠ (Category.mk 5 "expense").Type_ →
      createAccountCalls (createAccount workingStore ⟨capitalisedRequest, none⟩) = [] ∧
      responses (createAccount workingStore ⟨capitalisedRequest, none⟩) =
        [(400, Body.text "Account type is different of Category type")]) :=
  createAccount_creates_iff_type_eq workingStore ⟨capitalisedRequest, none⟩
    (Category.mk 5 "expense") rfl rfl rfl

/-- C5: when the binding succeeds, `getAccount` makes exactly one store call,
`GetAccount` with the requested id, and writes exactly one response: 404
exactly when the store's error is `sql.ErrNoRows`, 500 exactly when it is
another error, 200 exactly when there is no error, and then the body is the
store's account. -/
theorem getAccount_status_mapping (store : Store) (bind : Bind getAccountRequest)
    (hbind : bind.err = none) :
    calls (getAccount store bind) = [StoreCall.GetAccount bind.req.ID] ∧
    ∃ status body, responses (getAccount store bind) = [(status, body)] ∧
      (status = 404 ↔ (store.GetAccount bind.req.ID).err = some GoError.ErrNoRows) ∧
      (status = 500 ↔
        ∃ e, (store.GetAccount bind.req.ID).err = some e ∧ e ≠ GoError.ErrNoRows) ∧
      (status = 200 ↔ (store.GetAccount bind.req.ID).err = none) ∧
      ((status = 200 ∧ body = Body.account (store.GetAccount bind.req.ID).val)
        ↔ (store.GetAccount bind.req.ID).err = none) := by
  refine ⟨getAccount_calls store bind, ?_⟩
  rw [getAccount_responses, hbind]
  cases hr : (store.GetAccount bind.req.ID).err with
  | none => exact ⟨200, _, rfl, by simp⟩
  | some e =>
    by_cases he : e = GoError.ErrNoRows
    · exact ⟨404, Body.errorResponse e, by simp [onErr, he], by simp [he]⟩
    · exact ⟨500, Body.errorResponse e, by simp [onErr, he], by simp [he]⟩

/-- C5 at a concrete input: id 999999 on an empty database. -/
theorem getAccount_status_mapping_witness :
    calls (getAccount emptyStore ⟨⟨999999⟩, none⟩) = [StoreCall.GetAccount 999999] ∧
    ∃ status body, responses (getAccount emptyStore ⟨⟨999999⟩, none⟩) = [(status, body)] ∧
      (status = 404 ↔ (emptyStore.GetAccount 999999).err = some GoError.ErrNoRows) ∧
      (status = 500 ↔
        ∃ e, (emptyStore.GetAccount 999999).err = some e ∧ e ≠ GoError.ErrNoRows) ∧
      (status = 200 ↔ (emptyStore.GetAccount 999999).err = none) ∧
      ((status = 200 ∧ body = Body.account (emptyStore.GetAccount 999999).val)
        ↔ (emptyStore.GetAccount 999999).err = none) :=
  getAccount_status_mapping emptyStore ⟨⟨999999⟩, none⟩ rfl

/-- C6: when the binding succeeds, the category lookup succeeds and the
requested type equals the category's type, `createAccount` makes one
`CreateAccount` call, after `GetCategory`, whose parameters equal the
request field by field (the value as it is, whatever its sign); and when
that call succeeds the only response is status 200 with the account the
store returned. -/
theorem createAccount_passes_request (store : Store) (bind : Bind createAccountRequest)
    (hbind : bind.err = none)
    (herr : (store.GetCategory bind.req.CategoryID).err = none)
    (htype : bind.req.Type_ = (store.GetCategory bind.req.CategoryID).val.Type_) :
    ∃ arg : CreateAccountParams,
      calls (createAccount store bind) =
        [StoreCall.GetCategory bind.req.CategoryID, StoreCall.CreateAccount arg] ∧
      arg.UserID = bind.req.UserID ∧
      arg.CategoryID = bind.req.CategoryID ∧
      arg.Title = bind.req.Title ∧
      arg.Type_ = bind.req.Type_ ∧
      arg.Description = bind.req.Description ∧
      arg.Value = bind.req.Value ∧
      arg.Date = bind.req.Date ∧
      ((store.CreateAccount arg).err = none →
        responses (createAccount store bind) =
          [(200, Body.account (store.CreateAccount arg).val)]) := by
  refine ⟨createArg bind.req, ?_, rfl, rfl, rfl, rfl, rfl, rfl, rfl, fun hc => ?_⟩
  · rw [createAccount_calls, if_pos htype.symm]
  · rw [createAccount_responses, if_pos htype.symm, hbind, herr, hc]
    rfl

/-- C6 at a concrete input: category 5 of type "expense", value -1500. -/
theorem createAccount_passes_request_witness :
    ∃ arg : CreateAccountParams,
      calls (createAccount workingStore ⟨expenseRequest, none⟩) =
        [StoreCall.GetCategory 5, StoreCall.CreateAccount arg] ∧
      arg.UserID = 1 ∧
      arg.CategoryID = 5 ∧
      arg.Title = "Rent" ∧
      arg.Type_ = "expense" ∧
      arg.Description = "flat" ∧
      arg.Value = -1500 ∧
      arg.Date = ⟨0⟩ ∧
      ((workingStore.CreateAccount arg).err = none →
        responses (createAccount workingStore ⟨expenseRequest, none⟩) =
          [(200, Body.account (workingStore.CreateAccount arg).val)]) :=
  createAccount_passes_request workingStore ⟨expenseRequest, none⟩ rfl rfl rfl

/-- C7: on every execution of `createAccount`, whatever the bind outcome and
whatever `GetCategory` returns, `GetCategory` is called exactly once, with
the request's category id, and it is the first store call; the other store
calls are the `CreateAccount` calls, of which there is at most one; and every
`CreateAccount` call carries the type of the category value that
`GetCategory` returned and the category id that was passed to it. -/
theorem createAccount_call_discipline (store : Store) (bind : Bind createAccountRequest) :
    getCategoryCalls (createAccount store bind) = [bind.req.CategoryID] ∧
    calls (createAccount store bind) =
      StoreCall.GetCategory bind.req.CategoryID ::
        (createAccountCalls (createAccount store bind)).map StoreCall.CreateAccount ∧
    (createAccountCalls (createAccount store bind)).length ≤ 1 ∧
    ∀ arg ∈ createAccountCalls (createAccount store bind),
      arg.Type_ = (store.GetCategory bind.req.CategoryID).val.Type_ ∧
      arg.CategoryID = bind.req.CategoryID := by
  simp only [getCategoryCalls, createAccountCalls, createAccount_calls]
  by_cases h : (store.GetCategory bind.req.CategoryID).val.Type_ = bind.req.Type_
  · simp [h, createArg]
  · simp [h]

/-- C9: when the binding succeeds, `deleteAccount` makes exactly one store
call, `DeleteAccount` with the requested id, and writes exactly one response:
200 with body `true` exactly when the store returns no error, and 500 for
every store error, `sql.ErrNoRows` included; it never answers 404. -/
theorem deleteAccount_status_mapping (store : Store) (bind : Bind deleteAccountRequest)
    (hbind : bind.err = none) :
    calls (deleteAccount store bind) = [StoreCall.DeleteAccount bind.req.ID] ∧
    ∃ status body, responses (deleteAccount store bind) = [(status, body)] ∧
      ((status = 200 ∧ body = Body.bool true) ↔ store.DeleteAccount bind.req.ID = none) ∧
      (status = 200 ↔ store.DeleteAccount bind.req.ID = none) ∧
      (status = 500 ↔ ∃ e, store.DeleteAccount bind.req.ID = some e) ∧
      (store.DeleteAccount bind.req.ID = some GoError.ErrNoRows → status = 500) ∧
      status ≠ 404 := by
  refine ⟨deleteAccount_calls store bind, ?_⟩
  rw [deleteAccount_responses, hbind]
  cases hr : store.DeleteAccount bind.req.ID with
  | none => exact ⟨200, Body.bool true, rfl, by simp⟩
  | some e => exact ⟨500, Body.errorResponse e, rfl, by simp⟩

/-- C9 at a concrete input: deleting id 7 on an empty database, where the
store reports `sql.ErrNoRows`. -/
theorem deleteAccount_status_mapping_witness :
    calls (deleteAccount emptyStore ⟨⟨7⟩, none⟩) = [StoreCall.DeleteAccount 7] ∧
    ∃ status body, responses (deleteAccount emptyStore ⟨⟨7⟩, none⟩) = [(status, body)] ∧
      ((status = 200 ∧ body = Body.bool true) ↔ emptyStore.DeleteAccount 7 = none) ∧
      (status = 200 ↔ emptyStore.DeleteAccount 7 = none) ∧
      (status = 500 ↔ ∃ e, emptyStore.DeleteAccount 7 = some e) ∧
      (emptyStore.DeleteAccount 7 = some GoError.ErrNoRows → status = 500) ∧
      status ≠ 404 :=
  deleteAccount_status_mapping emptyStore ⟨⟨7⟩, none⟩ rfl

/-- C10: when the binding succeeds, `getAccountGraph` and `getAccountReports`
each make exactly one store call, with the request's user id and type; when
the store returns no error the only response is status 200 with the store's
sequence as it is (an empty sequence gives 200 with an empty sequence); when
the store returns an error the only response has status 500. -/
theorem graph_and_reports_delegate (store : Store)
    (bindG : Bind getAccountGraphRequest) (bindR : Bind getAccountReportsRequest)
    (hG : bindG.err = none) (hR : bindR.err = none) :
    (calls (getAccountGraph store bindG) =
        [StoreCall.GetAccountGraph ⟨bindG.req.UserID, bindG.req.Type_⟩] ∧
      (∀ rows, (store.GetAccountGraph ⟨bindG.req.UserID, bindG.req.Type_⟩).err = none →
        (store.GetAccountGraph ⟨bindG.req.UserID, bindG.req.Type_⟩).val = rows →
        responses (getAccountGraph store bindG) = [(200, Body.graph rows)]) ∧
      (∀ e, (store.GetAccountGraph ⟨bindG.req.UserID, bindG.req.Type_⟩).err = some e →
        responses (getAccountGraph store bindG) = [(500, Body.errorResponse e)])) ∧
    (calls (getAccountReports store bindR) =
        [StoreCall.GetAccountsReports ⟨bindR.req.UserID, bindR.req.Type_⟩] ∧
      (∀ rows, (store.GetAccountsReports ⟨bindR.req.UserID, bindR.req.Type_⟩).err = none →
        (store.GetAccountsReports ⟨bindR.req.UserID, bindR.req.Type_⟩).val = rows →
        responses (getAccountReports store bindR) = [(200, Body.reports rows)]) ∧
      (∀ e, (store.GetAccountsReports ⟨bindR.req.UserID, bindR.req.Type_⟩).err = some e →
        responses (getAccountReports store bindR) = [(500, Body.errorResponse e)])) := by
  refine ⟨⟨getAccountGraph_calls store bindG, fun rows h hv => ?_, fun e h => ?_⟩,
    ⟨getAccountReports_calls store bindR, fun rows h hv => ?_, fun e h => ?_⟩⟩
  · rw [getAccountGraph_responses, hG, h, hv]; rfl
  · rw [getAccountGraph_responses, hG, h]; rfl
  · rw [getAccountReports_responses, hR, h, hv]; rfl
  · rw [getAccountReports_responses, hR, h]; rfl

/-- C10 at a concrete input: user 1, type "income", on an empty database. -/
theorem graph_and_reports_delegate_witness :
    responses (getAccountGraph emptyStore ⟨⟨1, "income"⟩, none⟩) = [(200, Body.graph [])] ∧
    responses (getAccountReports emptyStore ⟨⟨1, "income"⟩, none⟩) =
      [(200, Body.reports [])] :=
  have h := graph_and_reports_delegate emptyStore ⟨⟨1, "income"⟩, none⟩
    ⟨⟨1, "income"⟩, none⟩ rfl rfl
  ⟨h.1.2.1 [] rfl rfl, h.2.2.1 [] rfl rfl⟩

/-- C2, the code at a failing input: the binding succeeds and category 5 does
not exist.  The handler writes 404 and goes on: it compares the type of the
zero-value category with the requested type and writes a second response,
400. -/
theorem createAccount_missing_category_two_responses :
    (emptyStore.GetCategory 5).err = some GoError.ErrNoRows ∧
    (emptyStore.GetCategory 5).val = Category.zero ∧
    calls (createAccount emptyStore ⟨incomeRequest, none⟩) = [StoreCall.GetCategory 5] ∧
    responses (createAccount emptyStore ⟨incomeRequest, none⟩) =
      [(404, Body.errorResponse GoError.ErrNoRows),
       (400, Body.text "Account type is different of Category type")] := by
  refine ⟨rfl, rfl, ?_, ?_⟩
  · rw [createAccount_calls]; decide
  · rw [createAccount_responses]; decide

/-- C3, the code at failing inputs: a bind that fails leaves the request
struct at its zero value.  Each of the seven handlers writes 400 and goes on
to call the store; `createAccount` reaches both `GetCategory` and
`CreateAccount` and writes four responses. -/
theorem handlers_continue_after_bind_error :
    (calls (createAccount emptyStore ⟨createAccountRequest.zero, some bindError⟩) =
        [StoreCall.GetCategory 0,
         StoreCall.CreateAccount ⟨0, 0, "", "", "", 0, ⟨0⟩⟩] ∧
      responses (createAccount emptyStore ⟨createAccountRequest.zero, some bindError⟩) =
        [(400, Body.errorResponse bindError),
         (404, Body.errorResponse GoError.ErrNoRows),
         (500, Body.errorResponse (GoError.other "violates foreign key constraint")),
         (200, Body.account Account.zero)]) ∧
    (calls (getAccount emptyStore ⟨⟨0⟩, some bindError⟩) = [StoreCall.GetAccount 0] ∧
      responses (getAccount emptyStore ⟨⟨0⟩, some bindError⟩) =
        [(400, Body.errorResponse bindError),
         (404, Body.errorResponse GoError.ErrNoRows)]) ∧
    (calls (getAccounts emptyStore ⟨⟨0, "", 0, "", "", ⟨0⟩⟩, some bindError⟩) =
        [StoreCall.GetAccounts ⟨0, "", 0, "", "", ⟨0⟩⟩] ∧
      responses (getAccounts emptyStore ⟨⟨0, "", 0, "", "", ⟨0⟩⟩, some bindError⟩) =
        [(400, Body.errorResponse bindError), (200, Body.accounts [])]) ∧
    (calls (updateAccount emptyStore ⟨⟨0, "", "", 0⟩, some bindError⟩) =
        [StoreCall.UpdateAccount ⟨0, "", "", 0⟩] ∧
      responses (updateAccount emptyStore ⟨⟨0, "", "", 0⟩, some bindError⟩) =
        [(400, Body.errorResponse bindError),
         (500, Body.errorResponse GoError.ErrNoRows),
         (200, Body.account Account.zero)]) ∧
    (calls (deleteAccount emptyStore ⟨⟨0⟩, some bindError⟩) = [StoreCall.DeleteAccount 0] ∧
      responses (deleteAccount emptyStore ⟨⟨0⟩, some bindError⟩) =
        [(400, Body.errorResponse bindError),
         (500, Body.errorResponse GoError.ErrNoRows)]) ∧
    (calls (getAccountGraph emptyStore ⟨⟨0, ""⟩, some bindError⟩) =
        [StoreCall.GetAccountGraph ⟨0, ""⟩] ∧
      responses (getAccountGraph emptyStore ⟨⟨0, ""⟩, some bindError⟩) =
        [(400, Body.errorResponse bindError), (200, Body.graph [])]) ∧
    (calls (getAccountReports emptyStore ⟨⟨0, ""⟩, some bindError⟩) =
        [StoreCall.GetAccountsReports ⟨0, ""⟩] ∧
      responses (getAccountReports emptyStore ⟨⟨0, ""⟩, some bindError⟩) =
        [(400, Body.errorResponse bindError), (200, Body.reports [])]) := by
  refine ⟨⟨?_, ?_⟩, ⟨rfl, rfl⟩, ⟨rfl, rfl⟩, ⟨rfl, rfl⟩, ⟨rfl, rfl⟩, ⟨rfl, rfl⟩, ⟨rfl, rfl⟩⟩
  · rw [createAccount_calls]; decide
  · rw [createAccount_responses]; decide

/-- C4, the code at a failing input: the binding succeeds, category 5 exists
with the requested type, and `CreateAccount` returns an error.  The handler
writes 500 and then a second response, 200, carrying the zero-value account
that came with the error. -/
theorem createAccount_persist_error_then_ok :
    (failingWriteStore.CreateAccount (createArg expenseRequest)).err =
      some (GoError.other "connection refused") ∧
    responses (createAccount failingWriteStore ⟨expenseRequest, none⟩) =
      [(500, Body.errorResponse (GoError.other "connection refused")),
       (200, Body.account Account.zero)] := by
  refine ⟨rfl, ?_⟩
  rw [createAccount_responses]; decide

/-- C8, the code at a failing input: the binding succeeds and `UpdateAccount`
returns an error.  The call is made once with the request's fields, and the
handler writes 500 and then a second response, 200, carrying the zero-value
account that came with the error. -/
theorem updateAccount_error_then_ok :
    calls (updateAccount failingWriteStore ⟨⟨7, "Rent", "flat", -1600⟩, none⟩) =
      [StoreCall.UpdateAccount ⟨7, "Rent", "flat", -1600⟩] ∧
    responses (updateAccount failingWriteStore ⟨⟨7, "Rent", "flat", -1600⟩, none⟩) =
      [(500, Body.errorResponse (GoError.other "connection refused")),
       (200, Body.account Account.zero)] :=
  ⟨rfl, rfl⟩

end GoFinance
